import Mathlib

/-!
Verification development for the ETH simple-analyzer repository.

The analysis engine (`simple_analyzer.py`) and the stream/buffer layer
(`websocket_handler.py`) are shallowly embedded below.  Numeric candle
fields arrive as JSON text and are parsed with `float(...)`; a field can
therefore be absent from the dict (KeyError) or present but unparseable
(ValueError/TypeError).  We model a raw field with `RawField` and parsing
with `RawField.parse`; real arithmetic is modelled with `ℚ`.  The only
non-rational operation in the source is `np.std` (a square root); the
functions that need it take the square-root function as an explicit
parameter `sqrtQ`, and theorems either hold for every such function or
certify the value of `sqrtQ` at the point where it is used.
-/

/-- A raw candle dict entry: absent key, unparseable value, or a number. -/
inductive RawField where
  | missing : RawField
  | bad : RawField
  | val : ℚ → RawField
deriving DecidableEq

/-- `float(field)` in the source: `none` models the exception raised for a
missing or unparseable field. -/
def RawField.parse : RawField → Option ℚ
  | .val q => some q
  | _ => none

/-- One candle dict as built by the ingestion layer
(`websocket_handler.py`); each numeric entry may be missing or bad. -/
structure Candle where
  timestamp : ℤ
  open_ : RawField
  high : RawField
  low : RawField
  close : RawField
  volume : RawField
deriving DecidableEq

/-- Placeholder used with `List.getD`; every index actually dereferenced by
the embedded loops is in range, so this default is never reached. -/
def dfltCandle : Candle := ⟨0, .missing, .missing, .missing, .missing, .missing⟩

/-- A swing point record `{"index": i, "price": p, "timestamp": t}` from
`find_swing_points`. -/
structure SwingPoint where
  index : ℕ
  price : ℚ
  timestamp : ℤ
deriving DecidableEq

/-- The inner `for j in range(i-lookback, i+lookforward+1)` loop of the
swing-high check in `find_swing_points` (lines 44-50): skip `j = i`;
parse `candles[j]['high']` (`none` = exception escapes the loop, modelled
as result `none`); disqualify and stop as soon as a compared high is
`≥ current_high`. -/
def swingHighCheck (candles : List Candle) (i : ℕ) (currentHigh : ℚ) :
    List ℕ → Option Bool
  | [] => some true
  | j :: js =>
    if j = i then swingHighCheck candles i currentHigh js
    else
      match (candles.getD j dfltCandle).high.parse with
      | none => none
      | some h =>
        if currentHigh ≤ h then some false
        else swingHighCheck candles i currentHigh js

/-- The swing-low loop of `find_swing_points` (lines 60-66): disqualify as
soon as a compared low is `≤ current_low`. -/
def swingLowCheck (candles : List Candle) (i : ℕ) (currentLow : ℚ) :
    List ℕ → Option Bool
  | [] => some true
  | j :: js =>
    if j = i then swingLowCheck candles i currentLow js
    else
      match (candles.getD j dfltCandle).low.parse with
      | none => none
      | some l =>
        if l ≤ currentLow then some false
        else swingLowCheck candles i currentLow js

/-- The index window `range(i - lookback, i + lookforward + 1)`. -/
def windowIdx (i lookback lookforward : ℕ) : List ℕ :=
  List.range' (i - lookback) (lookback + lookforward + 1)

/-- Body of the candidate loop of `find_swing_points` for one index `i`,
with the source's try/except semantics: parse the candidate's own high and
low (failure skips the candidate entirely); run the swing-high loop (an
exception inside it skips the candidate entirely, a disqualification does
not); append the swing high if it survived; then run the swing-low loop
(an exception there still keeps an already appended swing high). -/
def processCandidate (candles : List Candle) (lookback lookforward i : ℕ) :
    Option SwingPoint × Option SwingPoint :=
  match (candles.getD i dfltCandle).high.parse,
        (candles.getD i dfltCandle).low.parse with
  | some hi, some lo =>
    match swingHighCheck candles i hi (windowIdx i lookback lookforward) with
    | none => (none, none)
    | some isHigh =>
      match swingLowCheck candles i lo (windowIdx i lookback lookforward) with
      | none =>
        (if isHigh then some ⟨i, hi, (candles.getD i dfltCandle).timestamp⟩ else none, none)
      | some isLow =>
        (if isHigh then some ⟨i, hi, (candles.getD i dfltCandle).timestamp⟩ else none,
         if isLow then some ⟨i, lo, (candles.getD i dfltCandle).timestamp⟩ else none)
  | _, _ => (none, none)

/-- `find_swing_points(candles, lookback, lookforward)`
(`simple_analyzer.py` lines 27-81): fewer than `lookback+lookforward+1`
candles yields two empty lists; otherwise each candidate index in
`range(lookback, len - lookforward)` is processed in order. -/
def find_swing_points (candles : List Candle) (lookback lookforward : ℕ) :
    List SwingPoint × List SwingPoint :=
  if candles.length < lookback + lookforward + 1 then ([], [])
  else
    ((List.range' lookback (candles.length - lookforward - lookback)).filterMap
       fun i => (processCandidate candles lookback lookforward i).1,
     (List.range' lookback (candles.length - lookforward - lookback)).filterMap
       fun i => (processCandidate candles lookback lookforward i).2)

/-- `analyze_trend_direction(candles, swing_data)` (`simple_analyzer.py`
lines 83-144).  Result `none` models an exception escaping the function
(unparseable close in the fallback window, missing last candle, or
unparseable fields of the last candle). -/
def analyze_trend_direction (candles : List Candle)
    (swing_highs swing_lows : List SwingPoint) : Option (String × ℚ) :=
  if swing_highs.isEmpty || swing_lows.isEmpty then do
    let recent := candles.drop (candles.length - 20)
    let closes ← recent.mapM fun c => c.close.parse
    let last ← closes.getLast?
    let first ← closes.head?
    let price_change := (last - first) / first * 100
    if 1/2 < price_change then pure ("WEAK_BULLISH", (60 : ℚ))
    else if price_change < -(1/2) then pure ("WEAK_BEARISH", (60 : ℚ))
    else pure ("SIDEWAYS", (70 : ℚ))
  else do
    let last_swing_high ← swing_highs.getLast?
    let last_swing_low ← swing_lows.getLast?
    let current_candle ← candles.getLast?
    let current_high ← current_candle.high.parse
    let current_low ← current_candle.low.parse
    let current_close ← current_candle.close.parse
    let swing_high_distance := |current_high - last_swing_high.price| / last_swing_high.price * 100
    let swing_low_distance := |current_low - last_swing_low.price| / last_swing_low.price * 100
    if last_swing_high.price < current_high ∧ ¬ current_low < last_swing_low.price then
      pure ("BULLISH", min 95 (70 + swing_high_distance * 10))
    else if current_low < last_swing_low.price ∧ ¬ last_swing_high.price < current_high then
      pure ("BEARISH", min 95 (70 + swing_low_distance * 10))
    else if last_swing_high.price < current_high ∧ current_low < last_swing_low.price then
      if last_swing_low.index < last_swing_high.index then
        pure ("BULLISH", min 90 (60 + swing_high_distance * 10))
      else
        pure ("BEARISH", min 90 (60 + swing_low_distance * 10))
    else
      let swing_range := last_swing_high.price - last_swing_low.price
      if 0 < swing_range then
        let position_ratio := (current_close - last_swing_low.price) / swing_range
        pure ("SIDEWAYS", max 50 (100 - |position_ratio - 1/2| * 100))
      else
        pure ("SIDEWAYS", (50 : ℚ))

/-- Output record of `calculate_fibonacci_retracement`; the error and
invalid records carry no `prev_was_bullish` key, modelled with `none`. -/
structure FibResult where
  fib_level : ℚ
  retracement_pct : ℚ
  range_size : ℚ
  direction : String
  prev_was_bullish : Option Bool
deriving DecidableEq

/-- The fixed Fibonacci level list of `calculate_fibonacci_retracement`. -/
def fibLevels : List ℚ := [0, 236/1000, 382/1000, 1/2, 618/1000, 786/1000, 1]

/-- `min(fib_levels, key=lambda x: abs(x - r))`: Python's `min` keeps the
first element whose key is minimal, i.e. replaces the running best only on
a strictly smaller key. -/
def closestFib (r : ℚ) : ℚ :=
  fibLevels.foldl (fun best x => if |x - r| < |best - r| then x else best) 0

/-- `prev_candle.get('open', prev_candle['close'])`: a missing `open` key
falls back to the raw `close` entry (which is then parsed). -/
def openOrCloseRaw (prev : Candle) : RawField :=
  match prev.open_ with
  | .missing => prev.close
  | f => f

/-- `calculate_fibonacci_retracement(prev, current)` (`simple_analyzer.py`
lines 146-186).  All six field accesses are parsed first; any failure is
caught by the `except` and yields the `"error"` record.  A non-positive
previous range yields the `"invalid"` record. -/
def calculate_fibonacci_retracement (prev current : Candle) : FibResult :=
  match prev.high.parse, prev.low.parse, (openOrCloseRaw prev).parse,
        prev.close.parse, current.high.parse, current.low.parse with
  | some prev_high, some prev_low, some prev_open, some prev_close,
    some current_high, some current_low =>
    let prev_range := prev_high - prev_low
    if prev_range ≤ 0 then ⟨0, 0, 0, "invalid", none⟩
    else
      let prev_is_bullish := prev_open < prev_close
      let retracement_ratio :=
        if prev_is_bullish then (prev_high - current_low) / prev_range
        else (current_high - prev_low) / prev_range
      let ratio := max 0 (min 1 retracement_ratio)
      ⟨closestFib ratio, ratio * 100, prev_range,
       if prev_is_bullish then "pullback_after_bullish" else "recovery_after_bearish",
       some prev_is_bullish⟩
  | _, _, _, _, _, _ => ⟨0, 0, 0, "error", none⟩

/-- `np.mean` of a rational list. -/
def listMean (xs : List ℚ) : ℚ := xs.sum / xs.length

/-- Population variance, i.e. the square of `np.std`.  The source stores
`np.std` itself; we keep the (rational) variance since no claim reads the
stored standard deviation and square roots leave `ℚ`. -/
def popVar (xs : List ℚ) : ℚ :=
  ((xs.map fun x => (x - listMean xs) ^ 2).sum) / xs.length

/-- `max(set(fib_levels), key=fib_levels.count)`: an element of maximal
count.  CPython iterates the set in an unspecified (hash) order; we scan
the fixed level list in ascending order, keeping the first maximal count.
No claim depends on this tie order. -/
def dominantFib (ls : List ℚ) : ℚ :=
  fibLevels.foldl (fun best x => if ls.count best < ls.count x then x else best) 0

/-- Aggregate record of `calculate_average_retracement`;
`retracement_var` is the square of the stored `retracement_std`. -/
structure FibAgg where
  avg_retracement : ℚ
  dominant_fib_level : ℚ
  sample_size : ℕ
  retracement_var : ℚ
deriving DecidableEq

/-- `calculate_average_retracement(candles)` (`simple_analyzer.py` lines
188-218): over the last 20 candles, the pairwise fibonacci results with
positive range and non-error direction are aggregated. -/
def calculate_average_retracement (candles : List Candle) : FibAgg :=
  if candles.length < 20 then ⟨0, 0, 0, 0⟩
  else
    let recent := candles.drop (candles.length - 20)
    let fibs := (List.range (recent.length - 1)).map fun i =>
      calculate_fibonacci_retracement (recent.getD i dfltCandle) (recent.getD (i+1) dfltCandle)
    let kept := fibs.filter fun f => decide (0 < f.range_size ∧ f.direction ≠ "error")
    if kept.isEmpty then ⟨0, 0, 0, 0⟩
    else
      { avg_retracement := listMean (kept.map FibResult.retracement_pct)
        dominant_fib_level := dominantFib (kept.map FibResult.fib_level)
        sample_size := kept.length
        retracement_var :=
          if 1 < kept.length then popVar (kept.map FibResult.retracement_pct) else 0 }

/-- `candle.get('volume', 1)` then `float(...)`: missing volume defaults
to 1, an unparseable one raises. -/
def parseVolume (c : Candle) : Option ℚ :=
  match c.volume with
  | .missing => some 1
  | f => f.parse

/-- `volume_trend` of `calculate_trend_strength` (line 239):
`np.mean(volumes[-5:]) / np.mean(volumes[-15:])` when at least 15 volumes
are available, else 1. -/
def volumeTrend (volumes : List ℚ) : ℚ :=
  if 15 ≤ volumes.length then
    listMean (volumes.drop (volumes.length - 5)) /
      listMean (volumes.drop (volumes.length - 15))
  else 1

/-- The undamped strength of `calculate_trend_strength` (lines 236-247):
`max(0, min(100, momentum·5) − min(50, volatility·2) + bonus)`.  `sqrtQ`
stands for the square root inside `np.std`. -/
def rawStrength (sqrtQ : ℚ → ℚ) (closes volumes : List ℚ) (last first : ℚ) : ℚ :=
  let price_volatility := sqrtQ (popVar closes) / listMean closes * 100
  let price_momentum := |(last - first) / first * 100|
  let base_strength := min 100 (price_momentum * 5)
  let volatility_penalty := min 50 (price_volatility * 2)
  let volume_bonus :=
    if 1 < volumeTrend volumes then min 20 ((volumeTrend volumes - 1) * 20) else 0
  max 0 (base_strength - volatility_penalty + volume_bonus)

/-- The direction dampening of `calculate_trend_strength` (lines 249-252). -/
def dampen (direction : String) (strength : ℚ) : ℚ :=
  if direction = "SIDEWAYS" then strength * (3/10)
  else if direction = "WEAK_BULLISH" ∨ direction = "WEAK_BEARISH" then
    strength * (7/10)
  else strength

/-- `calculate_trend_strength(candles, direction)` (`simple_analyzer.py`
lines 228-254): fewer than 20 candles gives 0; otherwise the closes and
volumes of the last 20 candles are parsed (`none` models the exception
from an unparseable close or volume, in source order) and the dampened
raw strength is capped at 100. -/
def calculate_trend_strength (sqrtQ : ℚ → ℚ) (candles : List Candle)
    (direction : String) : Option ℚ :=
  if candles.length < 20 then some 0
  else do
    let recent := candles.drop (candles.length - 20)
    let closes ← recent.mapM fun c => c.close.parse
    let volumes ← recent.mapM parseVolume
    let last ← closes.getLast?
    let first ← closes.head?
    pure (min 100 (dampen direction (rawStrength sqrtQ closes volumes last first)))

/-- `should_update_analysis` (`simple_analyzer.py` lines 220-226); time is
wall-clock minutes, `UPDATE_INTERVAL = 5`. -/
def should_update_analysis (last_update : Option ℚ) (now : ℚ) : Bool :=
  match last_update with
  | none => true
  | some t => decide (5 ≤ now - t)

/-- The `current_analysis` dict assembled by `perform_analysis`.  Values
are kept unrounded (the source applies `round(..., 1)` / `round(..., 0)`
to `confidence`, `avg_fibonacci_retracement` and `trend_strength` for
display; no claim reads the rounded digits).  `swing_info` carries
`(last_swing_high, last_swing_low, swing_high_age, swing_low_age)` when
`swing_points_found`. -/
structure Snapshot where
  snap_time : ℚ
  current_price : ℚ
  current_high : ℚ
  current_low : ℚ
  direction : String
  confidence : ℚ
  avg_fibonacci_retracement : ℚ
  dominant_fib_level : ℚ
  trend_strength : ℚ
  candles_analyzed : ℕ
  sample_size : ℕ
  total_swing_highs : ℕ
  total_swing_lows : ℕ
  swing_info : Option (ℚ × ℚ × ℕ × ℕ)
deriving DecidableEq

/-- The body of the `try:` block of `perform_analysis` (lines 265-328):
swing detection, trend direction, fibonacci aggregate, trend strength and
the parses of the last candle, in source order; `none` models an
exception caught by the `except` handler. -/
def analysisPipeline (sqrtQ : ℚ → ℚ) (candles : List Candle) (now : ℚ) :
    Option Snapshot := do
  let (swing_highs, swing_lows) := find_swing_points candles 10 10
  let (direction, confidence) ← analyze_trend_direction candles swing_highs swing_lows
  let fib := calculate_average_retracement candles
  let trend_strength ← calculate_trend_strength sqrtQ candles direction
  let current_candle ← candles.getLast?
  let current_price ← current_candle.close.parse
  let current_high ← current_candle.high.parse
  let current_low ← current_candle.low.parse
  let swing_info :=
    match swing_highs.getLast?, swing_lows.getLast? with
    | some h, some l =>
      some (h.price, l.price, candles.length - 1 - h.index, candles.length - 1 - l.index)
    | _, _ => none
  pure { snap_time := now, current_price, current_high, current_low, direction,
         confidence, avg_fibonacci_retracement := fib.avg_retracement,
         dominant_fib_level := fib.dominant_fib_level, trend_strength,
         candles_analyzed := candles.length, sample_size := fib.sample_size,
         total_swing_highs := swing_highs.length,
         total_swing_lows := swing_lows.length, swing_info }

/-- Mutable engine state: `last_update` and the stored `current_analysis`
(initially `None` / `{}`). -/
structure AnalysisState where
  last_update : Option ℚ
  current_analysis : Option Snapshot
deriving DecidableEq

/-- `perform_analysis(candles)` (`simple_analyzer.py` lines 256-332): gate
check, window check, then the guarded pipeline; on success both
`current_analysis` and `last_update` are written, on any failure the state
is untouched and `None` is returned. -/
def perform_analysis (sqrtQ : ℚ → ℚ) (st : AnalysisState)
    (candles : List Candle) (now : ℚ) : AnalysisState × Option Snapshot :=
  if ¬ should_update_analysis st.last_update now then (st, none)
  else if candles.length < 20 then (st, none)
  else
    match analysisPipeline sqrtQ candles now with
    | none => (st, none)
    | some snap => (⟨some now, some snap⟩, some snap)

/-- `candle_buffer = deque(maxlen=1000)` (`websocket_handler.py` line 26):
one `append` (line 155) adds on the right and, when the buffer is already
at capacity, evicts the oldest (leftmost) entry. -/
def cb_append (buf : List Candle) (c : Candle) : List Candle :=
  if buf.length < 1000 then buf ++ [c] else buf.drop 1 ++ [c]

/-- Connection-loop state of `SimpleWebSocketHandler`: the `running` and
`connected` flags and the `reconnect_attempts` counter. -/
structure WSState where
  running : Bool
  connected : Bool
  reconnect_attempts : ℕ
deriving DecidableEq

/-- `max_reconnect_attempts = 5` (`websocket_handler.py` line 32). -/
def max_reconnect_attempts : ℕ := 5

/-- Net effect of one `connect_websocket()` call (lines 192-236) on the
loop state: a successful handshake sets `connected = True` and resets
`reconnect_attempts := 0` (lines 204-205), and every exit path of the call
ends with the connection closed (`connected = False`); a failed handshake
leaves the counter alone. -/
def after_connect (s : WSState) (success : Bool) : WSState :=
  if success then { s with connected := false, reconnect_attempts := 0 }
  else { s with connected := false }

/-- The reconnect logic after `connect_websocket` returns
(`websocket_handler.py` lines 252-261): increment the counter; if it is
still `≤ max_reconnect_attempts`, emit the backoff wait
`min(60, 5 * attempts)` seconds and stay running, otherwise `stop()`. -/
def reconnect_step (s : WSState) : WSState × Option ℕ :=
  let attempts := s.reconnect_attempts + 1
  if attempts ≤ max_reconnect_attempts then
    ({ s with reconnect_attempts := attempts }, some (min 60 (5 * attempts)))
  else
    ({ s with reconnect_attempts := attempts, running := false, connected := false }, none)

/-- One iteration of the `while self.running:` loop of
`start_with_reconnect` (lines 242-261), driven by whether the connection
attempt succeeded; a stopped handler does nothing. -/
def loop_step (s : WSState) (success : Bool) : WSState × Option ℕ :=
  if s.running then reconnect_step (after_connect s success) else (s, none)

/-- Run the reconnect loop over a list of connection outcomes, collecting
the emitted backoff waits in order. -/
def run_loop (s : WSState) : List Bool → WSState × List ℕ
  | [] => (s, [])
  | o :: os =>
    let (s', w) := loop_step s o
    let (s'', ws) := run_loop s' os
    (s'', w.toList ++ ws)

/-- State at the top of `start_with_reconnect`: `running := True`, no
attempts yet. -/
def ws_init : WSState := ⟨true, false, 0⟩

/-! ### Concrete data used by witnesses and counterexamples -/

/-- 21 well-formed candles whose middle candle (index 10) is a strict
swing high (high 100 vs. lower distinct highs) and a strict swing low
(low 1 vs. low 2 elsewhere). -/
def w21 : List Candle :=
  (List.range 21).map fun j =>
    ⟨(j : ℤ), .val 1, .val (if j = 10 then 100 else (j : ℚ)),
     .val (if j = 10 then 1 else 2), .val 5, .val 1⟩

/-- Like `w21` (strict swing high at index 10) except that candle 0 has an
unparseable `low`; all highs still parse and are strictly below 100. -/
def c10list : List Candle :=
  (List.range 21).map fun j =>
    ⟨(j : ℤ), .val 1, .val (if j = 10 then 100 else (j : ℚ)),
     (if j = 0 then .bad else .val 2), .val 5, .val 1⟩

/-- Latest candle breaking both the last swing high (100) and the last
swing low (50): high 101, low 49. -/
def c1cur : Candle := ⟨0, .val 50, .val 101, .val 49, .val 60, .val 1⟩

/-- A single swing high at index 12, price 100. -/
def c1sh : List SwingPoint := [⟨12, 100, 0⟩]

/-- A single swing low at index 11, price 50. -/
def c1sl : List SwingPoint := [⟨11, 50, 0⟩]

/-- 21 candles with all highs and all lows tied (so no swing points) whose
closes are 100, then eighteen 200s, then 201: the close 20 candles before
the latest is 100, but the first close of the last-20 window is 200. -/
def c7list : List Candle :=
  (List.range 21).map fun j =>
    ⟨(j : ℤ), .val 1, .val 1, .val 0,
     .val (if j = 0 then 100 else if j = 20 then 201 else 200), .val 1⟩

/-- The parsed closes of the last-20 window of `c7list`. -/
def closes7 : List ℚ := List.replicate 19 200 ++ [201]

/-- The spec's two-candle scenario: previous candle
`{open: 100, high: 110, low: 95, close: 108}`. -/
def fibPrevScenario : Candle := ⟨0, .val 100, .val 110, .val 95, .val 108, .val 1⟩

/-- The spec's scenario's current candle `{high: 107, low: 102}`. -/
def fibCurScenario : Candle := ⟨1, .val 100, .val 107, .val 102, .val 107, .val 1⟩

/-- The clamped retracement ratio of the spec scenario, as the code
computes it. -/
def fibScenarioRatio : ℚ :=
  max 0 (min 1 (if (100 : ℚ) < 108 then (110 - 102) / (110 - 95)
                else (107 - 95) / (110 - 95)))

/-- The spec scenario's previous candle with the `open` key removed. -/
def c9prev : Candle := ⟨0, .missing, .val 110, .val 95, .val 108, .val 1⟩

/-- A current candle for the missing-open case (high 107, low 102). -/
def c9cur : Candle := ⟨1, .val 1, .val 107, .val 102, .val 107, .val 1⟩

/-- A current candle whose high is unparseable. -/
def c9badcur : Candle := ⟨1, .val 1, .bad, .val 102, .val 107, .val 1⟩

/-- 20 candles whose highs are all unparseable, so every adjacent-pair
fibonacci result is the error record and the aggregate sample is empty. -/
def c9window : List Candle :=
  (List.range 20).map fun j => ⟨(j : ℤ), .val 1, .bad, .val 0, .val 1, .val 1⟩

/-- Square-root oracle for the trend-strength counterexample, correct at
the only point where it is consulted (`popVar` of the closes is 100, and
`sqrt10 100 = 10` with `10 ^ 2 = 100`). -/
def sqrt10 : ℚ → ℚ := fun q => if q = 100 then 10 else 0

/-- 20 candles: closes ten 100s then ten 120s (momentum 20%, population
standard deviation exactly 10), volumes fifteen 1s then five 4s (volume
trend 2, hence the full +20 bonus). -/
def c4candles : List Candle :=
  (List.range 20).map fun j =>
    ⟨(j : ℤ), .val 1, .val 1, .val 0, .val (if j < 10 then 100 else 120),
     .val (if j < 15 then 1 else 4)⟩

/-- The parsed closes of `c4candles`. -/
def c4closes : List ℚ := List.replicate 10 100 ++ List.replicate 10 120

/-- The parsed volumes of `c4candles`. -/
def c4vols : List ℚ := List.replicate 15 1 ++ List.replicate 5 4

/-- 20 candles whose closes are unparseable: the analysis pipeline raises
inside the trend-direction fallback, so `perform_analysis` must swallow
the exception and report no update. -/
def c5badlist : List Candle :=
  (List.range 20).map fun j => ⟨(j : ℤ), .val 1, .val 1, .val 0, .bad, .val 1⟩

/-! ### Helper lemmas about absolute values over `ℚ` -/

lemma q_abs_le_abs {a b : ℚ} (h : a ^ 2 ≤ b ^ 2) : |a| ≤ |b| := by
  nlinarith [sq_abs a, sq_abs b, abs_nonneg a, abs_nonneg b]

lemma q_abs_lt_abs {a b : ℚ} (h : a ^ 2 < b ^ 2) : |a| < |b| := by
  nlinarith [sq_abs a, sq_abs b, abs_nonneg a, abs_nonneg b]

lemma q_sq_eq_of_abs_eq {a b : ℚ} (h : |a| = |b|) : a ^ 2 = b ^ 2 := by
  rw [← sq_abs a, ← sq_abs b, h]

lemma not_abs_lt {a b : ℚ} (h : b ^ 2 ≤ a ^ 2) : ¬ |a| < |b| :=
  not_lt.mpr (q_abs_le_abs h)

/-! ### Evaluating `closestFib` on the seven half-open regions delimited by
the midpoints of consecutive Fibonacci levels (ties keep the earlier,
i.e. smaller, level because Python's `min` only replaces on a strictly
smaller key). -/

lemma closestFib_reg1 {r : ℚ} (h : r ≤ 118/1000) : closestFib r = 0 := by
  have c0 : ¬ |(0:ℚ) - r| < |(0:ℚ) - r| := lt_irrefl _
  have c1 : ¬ |(236:ℚ)/1000 - r| < |(0:ℚ) - r| := not_abs_lt (by nlinarith)
  have c2 : ¬ |(382:ℚ)/1000 - r| < |(0:ℚ) - r| := not_abs_lt (by nlinarith)
  have c3 : ¬ |(1:ℚ)/2 - r| < |(0:ℚ) - r| := not_abs_lt (by nlinarith)
  have c4 : ¬ |(618:ℚ)/1000 - r| < |(0:ℚ) - r| := not_abs_lt (by nlinarith)
  have c5 : ¬ |(786:ℚ)/1000 - r| < |(0:ℚ) - r| := not_abs_lt (by nlinarith)
  have c6 : ¬ |(1:ℚ) - r| < |(0:ℚ) - r| := not_abs_lt (by nlinarith)
  unfold closestFib fibLevels
  simp only [List.foldl]
  rw [if_neg c0, if_neg c1, if_neg c2, if_neg c3, if_neg c4, if_neg c5, if_neg c6]

lemma closestFib_reg2 {r : ℚ} (h1 : 118/1000 < r) (h2 : r ≤ 309/1000) :
    closestFib r = 236/1000 := by
  have c0 : ¬ |(0:ℚ) - r| < |(0:ℚ) - r| := lt_irrefl _
  have c1 : |(236:ℚ)/1000 - r| < |(0:ℚ) - r| := q_abs_lt_abs (by nlinarith)
  have c2 : ¬ |(382:ℚ)/1000 - r| < |(236:ℚ)/1000 - r| := not_abs_lt (by nlinarith)
  have c3 : ¬ |(1:ℚ)/2 - r| < |(236:ℚ)/1000 - r| := not_abs_lt (by nlinarith)
  have c4 : ¬ |(618:ℚ)/1000 - r| < |(236:ℚ)/1000 - r| := not_abs_lt (by nlinarith)
  have c5 : ¬ |(786:ℚ)/1000 - r| < |(236:ℚ)/1000 - r| := not_abs_lt (by nlinarith)
  have c6 : ¬ |(1:ℚ) - r| < |(236:ℚ)/1000 - r| := not_abs_lt (by nlinarith)
  unfold closestFib fibLevels
  simp only [List.foldl]
  rw [if_neg c0, if_pos c1, if_neg c2, if_neg c3, if_neg c4, if_neg c5, if_neg c6]

lemma closestFib_reg3 {r : ℚ} (h1 : 309/1000 < r) (h2 : r ≤ 441/1000) :
    closestFib r = 382/1000 := by
  have c0 : ¬ |(0:ℚ) - r| < |(0:ℚ) - r| := lt_irrefl _
  have c1 : |(236:ℚ)/1000 - r| < |(0:ℚ) - r| := q_abs_lt_abs (by nlinarith)
  have c2 : |(382:ℚ)/1000 - r| < |(236:ℚ)/1000 - r| := q_abs_lt_abs (by nlinarith)
  have c3 : ¬ |(1:ℚ)/2 - r| < |(382:ℚ)/1000 - r| := not_abs_lt (by nlinarith)
  have c4 : ¬ |(618:ℚ)/1000 - r| < |(382:ℚ)/1000 - r| := not_abs_lt (by nlinarith)
  have c5 : ¬ |(786:ℚ)/1000 - r| < |(382:ℚ)/1000 - r| := not_abs_lt (by nlinarith)
  have c6 : ¬ |(1:ℚ) - r| < |(382:ℚ)/1000 - r| := not_abs_lt (by nlinarith)
  unfold closestFib fibLevels
  simp only [List.foldl]
  rw [if_neg c0, if_pos c1, if_pos c2, if_neg c3, if_neg c4, if_neg c5, if_neg c6]

lemma closestFib_reg4 {r : ℚ} (h1 : 441/1000 < r) (h2 : r ≤ 559/1000) :
    closestFib r = 1/2 := by
  have c0 : ¬ |(0:ℚ) - r| < |(0:ℚ) - r| := lt_irrefl _
  have c1 : |(236:ℚ)/1000 - r| < |(0:ℚ) - r| := q_abs_lt_abs (by nlinarith)
  have c2 : |(382:ℚ)/1000 - r| < |(236:ℚ)/1000 - r| := q_abs_lt_abs (by nlinarith)
  have c3 : |(1:ℚ)/2 - r| < |(382:ℚ)/1000 - r| := q_abs_lt_abs (by nlinarith)
  have c4 : ¬ |(618:ℚ)/1000 - r| < |(1:ℚ)/2 - r| := not_abs_lt (by nlinarith)
  have c5 : ¬ |(786:ℚ)/1000 - r| < |(1:ℚ)/2 - r| := not_abs_lt (by nlinarith)
  have c6 : ¬ |(1:ℚ) - r| < |(1:ℚ)/2 - r| := not_abs_lt (by nlinarith)
  unfold closestFib fibLevels
  simp only [List.foldl]
  rw [if_neg c0, if_pos c1, if_pos c2, if_pos c3, if_neg c4, if_neg c5, if_neg c6]

lemma closestFib_reg5 {r : ℚ} (h1 : 559/1000 < r) (h2 : r ≤ 702/1000) :
    closestFib r = 618/1000 := by
  have c0 : ¬ |(0:ℚ) - r| < |(0:ℚ) - r| := lt_irrefl _
  have c1 : |(236:ℚ)/1000 - r| < |(0:ℚ) - r| := q_abs_lt_abs (by nlinarith)
  have c2 : |(382:ℚ)/1000 - r| < |(236:ℚ)/1000 - r| := q_abs_lt_abs (by nlinarith)
  have c3 : |(1:ℚ)/2 - r| < |(382:ℚ)/1000 - r| := q_abs_lt_abs (by nlinarith)
  have c4 : |(618:ℚ)/1000 - r| < |(1:ℚ)/2 - r| := q_abs_lt_abs (by nlinarith)
  have c5 : ¬ |(786:ℚ)/1000 - r| < |(618:ℚ)/1000 - r| := not_abs_lt (by nlinarith)
  have c6 : ¬ |(1:ℚ) - r| < |(618:ℚ)/1000 - r| := not_abs_lt (by nlinarith)
  unfold closestFib fibLevels
  simp only [List.foldl]
  rw [if_neg c0, if_pos c1, if_pos c2, if_pos c3, if_pos c4, if_neg c5, if_neg c6]

lemma closestFib_reg6 {r : ℚ} (h1 : 702/1000 < r) (h2 : r ≤ 893/1000) :
    closestFib r = 786/1000 := by
  have c0 : ¬ |(0:ℚ) - r| < |(0:ℚ) - r| := lt_irrefl _
  have c1 : |(236:ℚ)/1000 - r| < |(0:ℚ) - r| := q_abs_lt_abs (by nlinarith)
  have c2 : |(382:ℚ)/1000 - r| < |(236:ℚ)/1000 - r| := q_abs_lt_abs (by nlinarith)
  have c3 : |(1:ℚ)/2 - r| < |(382:ℚ)/1000 - r| := q_abs_lt_abs (by nlinarith)
  have c4 : |(618:ℚ)/1000 - r| < |(1:ℚ)/2 - r| := q_abs_lt_abs (by nlinarith)
  have c5 : |(786:ℚ)/1000 - r| < |(618:ℚ)/1000 - r| := q_abs_lt_abs (by nlinarith)
  have c6 : ¬ |(1:ℚ) - r| < |(786:ℚ)/1000 - r| := not_abs_lt (by nlinarith)
  unfold closestFib fibLevels
  simp only [List.foldl]
  rw [if_neg c0, if_pos c1, if_pos c2, if_pos c3, if_pos c4, if_pos c5, if_neg c6]

lemma closestFib_reg7 {r : ℚ} (h1 : 893/1000 < r) : closestFib r = 1 := by
  have c0 : ¬ |(0:ℚ) - r| < |(0:ℚ) - r| := lt_irrefl _
  have c1 : |(236:ℚ)/1000 - r| < |(0:ℚ) - r| := q_abs_lt_abs (by nlinarith)
  have c2 : |(382:ℚ)/1000 - r| < |(236:ℚ)/1000 - r| := q_abs_lt_abs (by nlinarith)
  have c3 : |(1:ℚ)/2 - r| < |(382:ℚ)/1000 - r| := q_abs_lt_abs (by nlinarith)
  have c4 : |(618:ℚ)/1000 - r| < |(1:ℚ)/2 - r| := q_abs_lt_abs (by nlinarith)
  have c5 : |(786:ℚ)/1000 - r| < |(618:ℚ)/1000 - r| := q_abs_lt_abs (by nlinarith)
  have c6 : |(1:ℚ) - r| < |(786:ℚ)/1000 - r| := q_abs_lt_abs (by nlinarith)
  unfold closestFib fibLevels
  simp only [List.foldl]
  rw [if_neg c0, if_pos c1, if_pos c2, if_pos c3, if_pos c4, if_pos c5, if_pos c6]

/-- The chosen level is always a member of the fixed Fibonacci set. -/
lemma closestFib_mem (r : ℚ) : closestFib r ∈ fibLevels := by
  rcases le_or_lt r (118/1000) with h | h1
  · rw [closestFib_reg1 h]; norm_num [fibLevels]
  rcases le_or_lt r (309/1000) with h2 | h2
  · rw [closestFib_reg2 h1 h2]; norm_num [fibLevels]
  rcases le_or_lt r (441/1000) with h3 | h3
  · rw [closestFib_reg3 h2 h3]; norm_num [fibLevels]
  rcases le_or_lt r (559/1000) with h4 | h4
  · rw [closestFib_reg4 h3 h4]; norm_num [fibLevels]
  rcases le_or_lt r (702/1000) with h5 | h5
  · rw [closestFib_reg5 h4 h5]; norm_num [fibLevels]
  rcases le_or_lt r (893/1000) with h6 | h6
  · rw [closestFib_reg6 h5 h6]; norm_num [fibLevels]
  · rw [closestFib_reg7 h6]; norm_num [fibLevels]

set_option maxHeartbeats 1600000 in
/-- The chosen level minimises the absolute distance to `r` over the set. -/
lemma closestFib_min (r : ℚ) : ∀ l ∈ fibLevels, |closestFib r - r| ≤ |l - r| := by
  intro l hl
  simp only [fibLevels, List.mem_cons, List.not_mem_nil, or_false] at hl
  rcases le_or_lt r (118/1000) with h | h1
  · rw [closestFib_reg1 h]
    rcases hl with rfl | rfl | rfl | rfl | rfl | rfl | rfl <;>
      exact q_abs_le_abs (by nlinarith)
  rcases le_or_lt r (309/1000) with h2 | h2
  · rw [closestFib_reg2 h1 h2]
    rcases hl with rfl | rfl | rfl | rfl | rfl | rfl | rfl <;>
      exact q_abs_le_abs (by nlinarith)
  rcases le_or_lt r (441/1000) with h3 | h3
  · rw [closestFib_reg3 h2 h3]
    rcases hl with rfl | rfl | rfl | rfl | rfl | rfl | rfl <;>
      exact q_abs_le_abs (by nlinarith)
  rcases le_or_lt r (559/1000) with h4 | h4
  · rw [closestFib_reg4 h3 h4]
    rcases hl with rfl | rfl | rfl | rfl | rfl | rfl | rfl <;>
      exact q_abs_le_abs (by nlinarith)
  rcases le_or_lt r (702/1000) with h5 | h5
  · rw [closestFib_reg5 h4 h5]
    rcases hl with rfl | rfl | rfl | rfl | rfl | rfl | rfl <;>
      exact q_abs_le_abs (by nlinarith)
  rcases le_or_lt r (893/1000) with h6 | h6
  · rw [closestFib_reg6 h5 h6]
    rcases hl with rfl | rfl | rfl | rfl | rfl | rfl | rfl <;>
      exact q_abs_le_abs (by nlinarith)
  · rw [closestFib_reg7 h6]
    rcases hl with rfl | rfl | rfl | rfl | rfl | rfl | rfl <;>
      exact q_abs_le_abs (by nlinarith)

set_option maxHeartbeats 1600000 in
/-- On a distance tie the chosen level is the smaller one (Python's `min`
keeps the first, and the level list is ascending). -/
lemma closestFib_first (r : ℚ) :
    ∀ l ∈ fibLevels, |l - r| = |closestFib r - r| → closestFib r ≤ l := by
  intro l hl heq
  simp only [fibLevels, List.mem_cons, List.not_mem_nil, or_false] at hl
  rcases le_or_lt r (118/1000) with h | h1
  · rw [closestFib_reg1 h] at heq ⊢
    rcases hl with rfl | rfl | rfl | rfl | rfl | rfl | rfl <;>
      (have hsq := q_sq_eq_of_abs_eq heq; nlinarith)
  rcases le_or_lt r (309/1000) with h2 | h2
  · rw [closestFib_reg2 h1 h2] at heq ⊢
    rcases hl with rfl | rfl | rfl | rfl | rfl | rfl | rfl <;>
      (have hsq := q_sq_eq_of_abs_eq heq; nlinarith)
  rcases le_or_lt r (441/1000) with h3 | h3
  · rw [closestFib_reg3 h2 h3] at heq ⊢
    rcases hl with rfl | rfl | rfl | rfl | rfl | rfl | rfl <;>
      (have hsq := q_sq_eq_of_abs_eq heq; nlinarith)
  rcases le_or_lt r (559/1000) with h4 | h4
  · rw [closestFib_reg4 h3 h4] at heq ⊢
    rcases hl with rfl | rfl | rfl | rfl | rfl | rfl | rfl <;>
      (have hsq := q_sq_eq_of_abs_eq heq; nlinarith)
  rcases le_or_lt r (702/1000) with h5 | h5
  · rw [closestFib_reg5 h4 h5] at heq ⊢
    rcases hl with rfl | rfl | rfl | rfl | rfl | rfl | rfl <;>
      (have hsq := q_sq_eq_of_abs_eq heq; nlinarith)
  rcases le_or_lt r (893/1000) with h6 | h6
  · rw [closestFib_reg6 h5 h6] at heq ⊢
    rcases hl with rfl | rfl | rfl | rfl | rfl | rfl | rfl <;>
      (have hsq := q_sq_eq_of_abs_eq heq; nlinarith)
  · rw [closestFib_reg7 h6] at heq ⊢
    rcases hl with rfl | rfl | rfl | rfl | rfl | rfl | rfl <;>
      (have hsq := q_sq_eq_of_abs_eq heq; nlinarith)


/-! ### Soundness of the swing-point window checks -/

/-- If the swing-high loop completes with `True`, every compared index in
the scanned list parses and is strictly below the candidate high. -/
lemma swingHighCheck_sound (candles : List Candle) (i : ℕ) (cur : ℚ) :
    ∀ js, swingHighCheck candles i cur js = some true →
      ∀ j ∈ js, j ≠ i →
        ∃ hj, (candles.getD j dfltCandle).high.parse = some hj ∧ hj < cur := by
  intro js
  induction js with
  | nil => intro _ j hj; exact absurd hj (List.not_mem_nil j)
  | cons a as ih =>
    intro hchk j hj hne
    by_cases hai : a = i
    · rw [swingHighCheck, if_pos hai] at hchk
      rcases List.mem_cons.mp hj with rfl | hj'
      · exact absurd hai hne
      · exact ih hchk j hj' hne
    · rw [swingHighCheck, if_neg hai] at hchk
      split at hchk
      · exact absurd hchk (by simp)
      · rename_i h hp
        by_cases hcmp : cur ≤ h
        · rw [if_pos hcmp] at hchk; exact absurd hchk (by simp)
        · rw [if_neg hcmp] at hchk
          rcases List.mem_cons.mp hj with rfl | hj'
          · exact ⟨h, hp, not_le.mp hcmp⟩
          · exact ih hchk j hj' hne

/-- If the swing-low loop completes with `True`, every compared index in
the scanned list parses and is strictly above the candidate low. -/
lemma swingLowCheck_sound (candles : List Candle) (i : ℕ) (cur : ℚ) :
    ∀ js, swingLowCheck candles i cur js = some true →
      ∀ j ∈ js, j ≠ i →
        ∃ lj, (candles.getD j dfltCandle).low.parse = some lj ∧ cur < lj := by
  intro js
  induction js with
  | nil => intro _ j hj; exact absurd hj (List.not_mem_nil j)
  | cons a as ih =>
    intro hchk j hj hne
    by_cases hai : a = i
    · rw [swingLowCheck, if_pos hai] at hchk
      rcases List.mem_cons.mp hj with rfl | hj'
      · exact absurd hai hne
      · exact ih hchk j hj' hne
    · rw [swingLowCheck, if_neg hai] at hchk
      split at hchk
      · exact absurd hchk (by simp)
      · rename_i l hp
        by_cases hcmp : l ≤ cur
        · rw [if_pos hcmp] at hchk; exact absurd hchk (by simp)
        · rw [if_neg hcmp] at hchk
          rcases List.mem_cons.mp hj with rfl | hj'
          · exact ⟨l, hp, not_le.mp hcmp⟩
          · exact ih hchk j hj' hne

/-- Characterisation of a produced swing high for one candidate. -/
lemma processCandidate_fst {candles : List Candle} {lb lf i : ℕ} {sw : SwingPoint}
    (h : (processCandidate candles lb lf i).1 = some sw) :
    sw.index = i ∧ (candles.getD i dfltCandle).high.parse = some sw.price ∧
      swingHighCheck candles i sw.price (windowIdx i lb lf) = some true := by
  unfold processCandidate at h
  split at h
  · rename_i hi lo hhi hlo
    split at h
    · simp at h
    · rename_i isHigh hchk
      split at h
      · rename_i hlow
        simp only [] at h
        split at h
        · rename_i hisHigh
          simp only [Option.some.injEq] at h
          subst h
          simp only [hisHigh] at hchk
          exact ⟨rfl, hhi, hchk⟩
        · simp at h
      · rename_i isLow hlow
        simp only [] at h
        split at h
        · rename_i hisHigh
          simp only [Option.some.injEq] at h
          subst h
          simp only [hisHigh] at hchk
          exact ⟨rfl, hhi, hchk⟩
        · simp at h
  · simp at h

/-- Characterisation of a produced swing low for one candidate. -/
lemma processCandidate_snd {candles : List Candle} {lb lf i : ℕ} {sw : SwingPoint}
    (h : (processCandidate candles lb lf i).2 = some sw) :
    sw.index = i ∧ (candles.getD i dfltCandle).low.parse = some sw.price ∧
      swingLowCheck candles i sw.price (windowIdx i lb lf) = some true := by
  unfold processCandidate at h
  split at h
  · rename_i hi lo hhi hlo
    split at h
    · simp at h
    · rename_i isHigh hchk
      split at h
      · simp at h
      · rename_i isLow hlow
        simp only [] at h
        split at h
        · rename_i hisLow
          simp only [Option.some.injEq] at h
          subst h
          simp only [hisLow] at hlow
          exact ⟨rfl, hlo, hlow⟩
        · simp at h
  · simp at h

/-- C2: with `lookback = lookforward = 10`, every produced swing high has
its candidate index in `[10, len - 10)` and a high strictly greater than
every other candle's parsed high in the inclusive window
`[index - 10, index + 10]`; symmetrically, every produced swing low's low
is strictly less than every other parsed low in its window.  (An equal
neighbouring value therefore disqualifies a candidate, by strictness.) -/
theorem swing_points_are_strict_extrema (candles : List Candle) (sw : SwingPoint) :
    (sw ∈ (find_swing_points candles 10 10).1 →
      10 ≤ sw.index ∧ sw.index + 10 < candles.length ∧
      (candles.getD sw.index dfltCandle).high.parse = some sw.price ∧
      ∀ j, sw.index - 10 ≤ j → j ≤ sw.index + 10 → j ≠ sw.index →
        ∃ hj, (candles.getD j dfltCandle).high.parse = some hj ∧ hj < sw.price) ∧
    (sw ∈ (find_swing_points candles 10 10).2 →
      10 ≤ sw.index ∧ sw.index + 10 < candles.length ∧
      (candles.getD sw.index dfltCandle).low.parse = some sw.price ∧
      ∀ j, sw.index - 10 ≤ j → j ≤ sw.index + 10 → j ≠ sw.index →
        ∃ lj, (candles.getD j dfltCandle).low.parse = some lj ∧ sw.price < lj) := by
  constructor
  · intro hmem
    unfold find_swing_points at hmem
    split at hmem
    · exact absurd hmem (List.not_mem_nil sw)
    · rename_i hlen
      obtain ⟨i, hi_mem, hpc⟩ := List.mem_filterMap.mp hmem
      obtain ⟨hidx, hparse, hchk⟩ := processCandidate_fst hpc
      obtain ⟨hlo, hhi⟩ := List.mem_range'_1.mp hi_mem
      subst hidx
      refine ⟨hlo, by omega, hparse, ?_⟩
      intro j hj1 hj2 hne
      refine swingHighCheck_sound candles sw.index sw.price _ hchk j ?_ hne
      unfold windowIdx
      exact List.mem_range'_1.mpr (by omega)
  · intro hmem
    unfold find_swing_points at hmem
    split at hmem
    · exact absurd hmem (List.not_mem_nil sw)
    · rename_i hlen
      obtain ⟨i, hi_mem, hpc⟩ := List.mem_filterMap.mp hmem
      obtain ⟨hidx, hparse, hchk⟩ := processCandidate_snd hpc
      obtain ⟨hlo, hhi⟩ := List.mem_range'_1.mp hi_mem
      subst hidx
      refine ⟨hlo, by omega, hparse, ?_⟩
      intro j hj1 hj2 hne
      refine swingLowCheck_sound candles sw.index sw.price _ hchk j ?_ hne
      unfold windowIdx
      exact List.mem_range'_1.mpr (by omega)

/-- Witness for C2: the middle candle of `w21` is reported as swing high
and as swing low, and the theorem's conclusions hold for it. -/
theorem swing_points_are_strict_extrema_witness :
    ((⟨10, 100, 10⟩ : SwingPoint) ∈ (find_swing_points w21 10 10).1 ∧
      (10 ≤ (⟨10, 100, 10⟩ : SwingPoint).index ∧
       (⟨10, 100, 10⟩ : SwingPoint).index + 10 < w21.length ∧
       (w21.getD (⟨10, 100, 10⟩ : SwingPoint).index dfltCandle).high.parse =
         some (⟨10, 100, 10⟩ : SwingPoint).price ∧
       ∀ j, (⟨10, 100, 10⟩ : SwingPoint).index - 10 ≤ j →
         j ≤ (⟨10, 100, 10⟩ : SwingPoint).index + 10 →
         j ≠ (⟨10, 100, 10⟩ : SwingPoint).index →
         ∃ hj, (w21.getD j dfltCandle).high.parse = some hj ∧
           hj < (⟨10, 100, 10⟩ : SwingPoint).price)) ∧
    ((⟨10, 1, 10⟩ : SwingPoint) ∈ (find_swing_points w21 10 10).2 ∧
      (10 ≤ (⟨10, 1, 10⟩ : SwingPoint).index ∧
       (⟨10, 1, 10⟩ : SwingPoint).index + 10 < w21.length ∧
       (w21.getD (⟨10, 1, 10⟩ : SwingPoint).index dfltCandle).low.parse =
         some (⟨10, 1, 10⟩ : SwingPoint).price ∧
       ∀ j, (⟨10, 1, 10⟩ : SwingPoint).index - 10 ≤ j →
         j ≤ (⟨10, 1, 10⟩ : SwingPoint).index + 10 →
         j ≠ (⟨10, 1, 10⟩ : SwingPoint).index →
         ∃ lj, (w21.getD j dfltCandle).low.parse = some lj ∧
           (⟨10, 1, 10⟩ : SwingPoint).price < lj)) :=
  ⟨⟨by decide, (swing_points_are_strict_extrema w21 ⟨10, 100, 10⟩).1 (by decide)⟩,
   ⟨by decide, (swing_points_are_strict_extrema w21 ⟨10, 1, 10⟩).2 (by decide)⟩⟩

/-- A produced swing high also required the candidate's own low to parse
(both fields are parsed before any window scan). -/
lemma processCandidate_fst_own_low {candles : List Candle} {lb lf i : ℕ} {sw : SwingPoint}
    (h : (processCandidate candles lb lf i).1 = some sw) :
    ∃ lo, (candles.getD i dfltCandle).low.parse = some lo := by
  unfold processCandidate at h
  split at h
  · rename_i hi lo hhi hlo
    exact ⟨lo, hlo⟩
  · simp at h

/-- A produced swing low also required the candidate's own high to parse. -/
lemma processCandidate_snd_own_high {candles : List Candle} {lb lf i : ℕ} {sw : SwingPoint}
    (h : (processCandidate candles lb lf i).2 = some sw) :
    ∃ hi, (candles.getD i dfltCandle).high.parse = some hi := by
  unfold processCandidate at h
  split at h
  · rename_i hi lo hhi hlo
    exact ⟨hi, hhi⟩
  · simp at h

/-- C10 counterexample: in `c10list`, candle 0's low is unparseable, yet
candidate 10 — whose comparison window contains candle 0 — is still
reported as a swing high (only the swing-low scan hits the bad field, and
the swing high has been recorded before it).  The claim predicts index 10
in neither output list. -/
theorem find_swing_points_bad_low_counterexample :
    (c10list.getD 0 dfltCandle).low = RawField.bad ∧
    (c10list.getD 0 dfltCandle).low.parse = none ∧
    find_swing_points c10list 10 10 = ([⟨10, 100, 10⟩], []) ∧
    (⟨10, 100, 10⟩ : SwingPoint) ∈ (find_swing_points c10list 10 10).1 := by decide

/-- C10 amended: `find_swing_points` is a total function (never raises);
a candidate whose own high or low is missing/unparseable, or — for the
swing-high list — whose window contains an unparseable high, or — for the
swing-low list — whose window contains an unparseable low, is skipped,
each candidate independently; but an unparseable window low alone does
not prevent a swing-high report (see the counterexample). -/
theorem find_swing_points_skip_semantics (candles : List Candle) (sw : SwingPoint) :
    (sw ∈ (find_swing_points candles 10 10).1 →
      (∃ lo, (candles.getD sw.index dfltCandle).low.parse = some lo) ∧
      ∀ j, sw.index - 10 ≤ j → j ≤ sw.index + 10 → j ≠ sw.index →
        ∃ hj, (candles.getD j dfltCandle).high.parse = some hj) ∧
    (sw ∈ (find_swing_points candles 10 10).2 →
      (∃ hi, (candles.getD sw.index dfltCandle).high.parse = some hi) ∧
      ∀ j, sw.index - 10 ≤ j → j ≤ sw.index + 10 → j ≠ sw.index →
        ∃ lj, (candles.getD j dfltCandle).low.parse = some lj) := by
  constructor
  · intro hmem
    unfold find_swing_points at hmem
    split at hmem
    · exact absurd hmem (List.not_mem_nil sw)
    · obtain ⟨i, hi_mem, hpc⟩ := List.mem_filterMap.mp hmem
      obtain ⟨hidx, hparse, hchk⟩ := processCandidate_fst hpc
      obtain ⟨hlo, hhi⟩ := List.mem_range'_1.mp hi_mem
      subst hidx
      refine ⟨processCandidate_fst_own_low hpc, ?_⟩
      intro j hj1 hj2 hne
      obtain ⟨hj, hpj, _⟩ :=
        swingHighCheck_sound candles sw.index sw.price _ hchk j
          (by unfold windowIdx; exact List.mem_range'_1.mpr (by omega)) hne
      exact ⟨hj, hpj⟩
  · intro hmem
    unfold find_swing_points at hmem
    split at hmem
    · exact absurd hmem (List.not_mem_nil sw)
    · obtain ⟨i, hi_mem, hpc⟩ := List.mem_filterMap.mp hmem
      obtain ⟨hidx, hparse, hchk⟩ := processCandidate_snd hpc
      obtain ⟨hlo, hhi⟩ := List.mem_range'_1.mp hi_mem
      subst hidx
      refine ⟨processCandidate_snd_own_high hpc, ?_⟩
      intro j hj1 hj2 hne
      obtain ⟨lj, hpj, _⟩ :=
        swingLowCheck_sound candles sw.index sw.price _ hchk j
          (by unfold windowIdx; exact List.mem_range'_1.mpr (by omega)) hne
      exact ⟨lj, hpj⟩

/-- Witness for the amended C10 theorem, at the counterexample data: the
swing high of `c10list` has a parsed own low and every window high
parses. -/
theorem find_swing_points_skip_semantics_witness :
    (⟨10, 100, 10⟩ : SwingPoint) ∈ (find_swing_points c10list 10 10).1 ∧
    ((∃ lo, (c10list.getD (⟨10, 100, 10⟩ : SwingPoint).index dfltCandle).low.parse = some lo) ∧
      ∀ j, (⟨10, 100, 10⟩ : SwingPoint).index - 10 ≤ j →
        j ≤ (⟨10, 100, 10⟩ : SwingPoint).index + 10 →
        j ≠ (⟨10, 100, 10⟩ : SwingPoint).index →
        ∃ hj, (c10list.getD j dfltCandle).high.parse = some hj) :=
  ⟨by decide, (find_swing_points_skip_semantics c10list ⟨10, 100, 10⟩).1 (by decide)⟩

/-- C1 counterexample: with the latest candle breaking both levels
(high 101 > 100, low 49 < 50) and the swing high more recent (index 12 >
11), the code returns confidence `min(90, 60 + 1·10) = 70`, not the
claimed `min(90, 70 + 1·10) = 80` (the single-break base 70 is replaced
by 60 in the both-broken branch). -/
theorem analyze_trend_both_broken_counterexample :
    analyze_trend_direction [c1cur] c1sh c1sl = some ("BULLISH", 70) ∧
    min 90 (70 + |(101 : ℚ) - 100| / 100 * 100 * 10) = 80 ∧
    (70 : ℚ) ≠ 80 := by
  refine ⟨?_, by norm_num, by norm_num⟩
  norm_num [analyze_trend_direction, c1cur, c1sh, c1sl, RawField.parse]

/-- C1 amended: when the latest candle breaks both the most recent swing
high and the most recent swing low, the direction is resolved by recency
(`BULLISH` iff the swing high's index is larger), and the confidence is
`min(90, 60 + breakoutDistancePct·10)` — base 60, not the single-break
base 70 — where the distance is taken from the broken side's level. -/
theorem analyze_trend_both_broken (candles : List Candle)
    (sh sl : List SwingPoint) (H L : SwingPoint) (cur : Candle) (ch cl cc : ℚ)
    (hH : sh.getLast? = some H) (hL : sl.getLast? = some L)
    (hcur : candles.getLast? = some cur)
    (hch : cur.high.parse = some ch) (hcl : cur.low.parse = some cl)
    (hcc : cur.close.parse = some cc)
    (hbH : H.price < ch) (hbL : cl < L.price) :
    analyze_trend_direction candles sh sl =
      some (if L.index < H.index then
              ("BULLISH", min 90 (60 + |ch - H.price| / H.price * 100 * 10))
            else
              ("BEARISH", min 90 (60 + |cl - L.price| / L.price * 100 * 10))) := by
  have hshne : sh ≠ [] := by rintro rfl; simp at hH
  have hslne : sl ≠ [] := by rintro rfl; simp at hL
  have h1 : ¬(H.price < ch ∧ ¬ cl < L.price) := fun h => h.2 hbL
  have h2 : ¬(cl < L.price ∧ ¬ H.price < ch) := fun h => h.2 hbH
  have h3 : H.price < ch ∧ cl < L.price := ⟨hbH, hbL⟩
  simp only [analyze_trend_direction, List.isEmpty_eq_true, hshne, hslne, or_self,
    Bool.or_eq_true, List.isEmpty_iff, or_false, false_or, if_false, ite_false,
    hH, hL, hcur, hch, hcl, hcc, Option.bind_eq_bind, Option.some_bind]
  rw [if_neg h1, if_neg h2, if_pos h3]
  split_ifs <;> rfl

/-- Witness for the amended C1 theorem at the counterexample data. -/
theorem analyze_trend_both_broken_witness :
    c1sh.getLast? = some ⟨12, 100, 0⟩ ∧ c1sl.getLast? = some ⟨11, 50, 0⟩ ∧
    [c1cur].getLast? = some c1cur ∧ c1cur.high.parse = some 101 ∧
    c1cur.low.parse = some 49 ∧ c1cur.close.parse = some 60 ∧
    (⟨12, 100, 0⟩ : SwingPoint).price < (101 : ℚ) ∧
    (49 : ℚ) < (⟨11, 50, 0⟩ : SwingPoint).price ∧
    analyze_trend_direction [c1cur] c1sh c1sl =
      some (if (⟨11, 50, 0⟩ : SwingPoint).index < (⟨12, 100, 0⟩ : SwingPoint).index then
              ("BULLISH", min 90 (60 + |(101 : ℚ) - (⟨12, 100, 0⟩ : SwingPoint).price| /
                (⟨12, 100, 0⟩ : SwingPoint).price * 100 * 10))
            else
              ("BEARISH", min 90 (60 + |(49 : ℚ) - (⟨11, 50, 0⟩ : SwingPoint).price| /
                (⟨11, 50, 0⟩ : SwingPoint).price * 100 * 10))) :=
  ⟨by decide, by decide, by decide, by decide, by decide, by decide, by decide, by decide,
   analyze_trend_both_broken [c1cur] c1sh c1sl ⟨12, 100, 0⟩ ⟨11, 50, 0⟩ c1cur 101 49 60
     (by decide) (by decide) (by decide) (by decide) (by decide) (by decide)
     (by decide) (by decide)⟩

/-- C7 counterexample: `c7list` has 21 candles and no swing points (all
highs/lows tied), so the fallback fires.  The close 20 candles prior to
the latest is 100, giving a +101% change — the claim predicts
`WEAK_BULLISH` with confidence 60 — but the code compares against the
first close of the last-20 window (200, only 19 candles prior), computes
exactly +0.5%, and returns `SIDEWAYS` with confidence 70. -/
theorem trend_fallback_counterexample :
    c7list.length = 21 ∧
    find_swing_points c7list 10 10 = ([], []) ∧
    (c7list.getD 0 dfltCandle).close.parse = some 100 ∧
    (c7list.getD 20 dfltCandle).close.parse = some 201 ∧
    (1/2 : ℚ) < ((201 : ℚ) - 100) / 100 * 100 ∧
    analyze_trend_direction c7list [] [] = some ("SIDEWAYS", 70) ∧
    ("SIDEWAYS", (70 : ℚ)) ≠ ("WEAK_BULLISH", 60) := by
  refine ⟨by decide, by decide, by decide, by decide, by norm_num, ?_, by simp⟩
  have hmap : (c7list.drop (c7list.length - 20)).mapM (fun c => c.close.parse) =
      some closes7 := by decide
  have hlast : closes7.getLast? = some 201 := by decide
  have hhead : closes7.head? = some 200 := by decide
  simp only [analyze_trend_direction, List.isEmpty_nil, Bool.or_self, if_true, ite_true,
    hmap, Option.bind_eq_bind, Option.some_bind, hlast, hhead]
  norm_num

/-- C7 amended: when either swing list is empty the classifier falls back
to comparing the latest close with the first close of the last-20-candle
window (19 candles prior when at least 20 candles are present, not 20):
change above +0.5% gives `WEAK_BULLISH` 60, below −0.5% gives
`WEAK_BEARISH` 60, otherwise `SIDEWAYS` 70; and with fewer than 21
candles the swing detector returns two empty lists rather than an
error. -/
theorem trend_fallback_spec (candles : List Candle)
    (sh sl : List SwingPoint) (closes : List ℚ) (c0 cn : ℚ)
    (hempty : sh = [] ∨ sl = [])
    (hmap : (candles.drop (candles.length - 20)).mapM (fun c => c.close.parse) =
      some closes)
    (hhead : closes.head? = some c0) (hlast : closes.getLast? = some cn) :
    analyze_trend_direction candles sh sl =
      some (if 1/2 < (cn - c0) / c0 * 100 then ("WEAK_BULLISH", (60 : ℚ))
            else if (cn - c0) / c0 * 100 < -(1/2) then ("WEAK_BEARISH", (60 : ℚ))
            else ("SIDEWAYS", (70 : ℚ))) ∧
    (candles.length < 21 → find_swing_points candles 10 10 = ([], [])) := by
  constructor
  · have hcond : (sh.isEmpty || sl.isEmpty) = true := by
      rcases hempty with rfl | rfl <;> simp
    simp only [analyze_trend_direction, hcond, if_true, ite_true, hmap,
      Option.bind_eq_bind, Option.some_bind, hhead, hlast]
    split_ifs <;> rfl
  · intro hlen
    unfold find_swing_points
    rw [if_pos (by omega)]

/-- Witness for the amended C7 theorem at the counterexample data. -/
theorem trend_fallback_spec_witness :
    (([] : List SwingPoint) = [] ∨ ([] : List SwingPoint) = []) ∧
    (c7list.drop (c7list.length - 20)).mapM (fun c => c.close.parse) = some closes7 ∧
    closes7.head? = some 200 ∧ closes7.getLast? = some 201 ∧
    (analyze_trend_direction c7list [] [] =
      some (if 1/2 < ((201 : ℚ) - 200) / 200 * 100 then ("WEAK_BULLISH", (60 : ℚ))
            else if ((201 : ℚ) - 200) / 200 * 100 < -(1/2) then ("WEAK_BEARISH", (60 : ℚ))
            else ("SIDEWAYS", (70 : ℚ))) ∧
     (c7list.length < 21 → find_swing_points c7list 10 10 = ([], []))) :=
  ⟨Or.inl rfl, by decide, by decide, by decide,
   trend_fallback_spec c7list [] [] closes7 200 201 (Or.inl rfl) (by decide)
     (by decide) (by decide)⟩

/-- C3: for a pair of candles with parseable fields, a non-positive
previous range yields the invalid record with level 0, retracement 0 and
range 0; otherwise the returned level is the member of the fixed
Fibonacci set closest to the clamped ratio (the smallest member on a
tie), `retracement_pct` is the clamped ratio times 100 and lies in
`[0, 100]`; and on the spec's concrete scenario the ratio is `8/15`, the
level `0.5` and the retracement `160/3 ≈ 53.3`. -/
theorem calculate_fibonacci_retracement_spec (prev current : Candle)
    (ph pl po pc chg clw : ℚ)
    (hph : prev.high.parse = some ph) (hpl : prev.low.parse = some pl)
    (hpo : (openOrCloseRaw prev).parse = some po) (hpc : prev.close.parse = some pc)
    (hch : current.high.parse = some chg) (hcl : current.low.parse = some clw) :
    (ph - pl ≤ 0 →
      calculate_fibonacci_retracement prev current = ⟨0, 0, 0, "invalid", none⟩) ∧
    (0 < ph - pl →
      (calculate_fibonacci_retracement prev current).fib_level ∈ fibLevels ∧
      (∀ l ∈ fibLevels,
        |(calculate_fibonacci_retracement prev current).fib_level -
          max 0 (min 1 (if po < pc then (ph - clw) / (ph - pl)
                        else (chg - pl) / (ph - pl)))| ≤
        |l - max 0 (min 1 (if po < pc then (ph - clw) / (ph - pl)
                           else (chg - pl) / (ph - pl)))|) ∧
      (∀ l ∈ fibLevels,
        |l - max 0 (min 1 (if po < pc then (ph - clw) / (ph - pl)
                           else (chg - pl) / (ph - pl)))| =
        |(calculate_fibonacci_retracement prev current).fib_level -
          max 0 (min 1 (if po < pc then (ph - clw) / (ph - pl)
                        else (chg - pl) / (ph - pl)))| →
        (calculate_fibonacci_retracement prev current).fib_level ≤ l) ∧
      (calculate_fibonacci_retracement prev current).retracement_pct =
        max 0 (min 1 (if po < pc then (ph - clw) / (ph - pl)
                      else (chg - pl) / (ph - pl))) * 100 ∧
      0 ≤ (calculate_fibonacci_retracement prev current).retracement_pct ∧
      (calculate_fibonacci_retracement prev current).retracement_pct ≤ 100) ∧
    calculate_fibonacci_retracement fibPrevScenario fibCurScenario =
      ⟨1/2, 160/3, 15, "pullback_after_bullish", some true⟩ := by
  have hscenario : calculate_fibonacci_retracement fibPrevScenario fibCurScenario =
      ⟨1/2, 160/3, 15, "pullback_after_bullish", some true⟩ := by
    have hr : max (0:ℚ) (min 1 ((110 - 102) / (110 - 95))) = 8/15 := by norm_num
    have hcf : closestFib (8/15) = 1/2 := closestFib_reg4 (by norm_num) (by norm_num)
    simp only [calculate_fibonacci_retracement, fibPrevScenario, fibCurScenario,
      openOrCloseRaw, RawField.parse]
    norm_num [hcf]
  refine ⟨?_, ?_, hscenario⟩
  · intro hle
    simp only [calculate_fibonacci_retracement, hph, hpl, hpo, hpc, hch, hcl]
    rw [if_pos hle]
  · intro hpos
    have hmain : calculate_fibonacci_retracement prev current =
        ⟨closestFib (max 0 (min 1 (if po < pc then (ph - clw) / (ph - pl)
            else (chg - pl) / (ph - pl)))),
         max 0 (min 1 (if po < pc then (ph - clw) / (ph - pl)
            else (chg - pl) / (ph - pl))) * 100,
         ph - pl,
         if po < pc then "pullback_after_bullish" else "recovery_after_bearish",
         some (decide (po < pc))⟩ := by
      simp only [calculate_fibonacci_retracement, hph, hpl, hpo, hpc, hch, hcl]
      rw [if_neg (not_le.mpr hpos)]
    set r := max 0 (min 1 (if po < pc then (ph - clw) / (ph - pl)
      else (chg - pl) / (ph - pl))) with hr
    have hr0 : 0 ≤ r := le_max_left 0 _
    have hr1 : r ≤ 1 := max_le (by norm_num) (min_le_left 1 _)
    rw [hmain]
    refine ⟨closestFib_mem r, closestFib_min r, closestFib_first r, rfl, ?_, ?_⟩
    · show (0 : ℚ) ≤ r * 100
      nlinarith
    · show r * 100 ≤ (100 : ℚ)
      nlinarith

/-- Witness for C3 at the spec scenario: all six fields parse, the
previous range is positive, and the instantiated conclusions hold. -/
theorem calculate_fibonacci_retracement_spec_witness :
    fibPrevScenario.high.parse = some 110 ∧
    fibPrevScenario.low.parse = some 95 ∧
    (openOrCloseRaw fibPrevScenario).parse = some 100 ∧
    fibPrevScenario.close.parse = some 108 ∧
    fibCurScenario.high.parse = some 107 ∧
    fibCurScenario.low.parse = some 102 ∧
    (0 : ℚ) < 110 - 95 ∧
    ((calculate_fibonacci_retracement fibPrevScenario fibCurScenario).fib_level ∈ fibLevels ∧
     (∀ l ∈ fibLevels,
       |(calculate_fibonacci_retracement fibPrevScenario fibCurScenario).fib_level -
         fibScenarioRatio| ≤ |l - fibScenarioRatio|) ∧
     (∀ l ∈ fibLevels,
       |l - fibScenarioRatio| =
       |(calculate_fibonacci_retracement fibPrevScenario fibCurScenario).fib_level -
         fibScenarioRatio| →
       (calculate_fibonacci_retracement fibPrevScenario fibCurScenario).fib_level ≤ l) ∧
     (calculate_fibonacci_retracement fibPrevScenario fibCurScenario).retracement_pct =
       fibScenarioRatio * 100 ∧
     0 ≤ (calculate_fibonacci_retracement fibPrevScenario fibCurScenario).retracement_pct ∧
     (calculate_fibonacci_retracement fibPrevScenario fibCurScenario).retracement_pct ≤ 100) :=
  ⟨by decide, by decide, by decide, by decide, by decide, by decide, by norm_num,
   (calculate_fibonacci_retracement_spec fibPrevScenario fibCurScenario
      110 95 100 108 107 102 (by decide) (by decide) (by decide) (by decide)
      (by decide) (by decide)).2.1 (by norm_num)⟩

/-- C9 counterexample: a pair with a *missing* `open` (all other fields
parseable) does not produce the error record — the code falls back to the
raw close for the open, classifies the previous candle as non-bullish
(108 < 108 is false) and returns a normal `recovery_after_bearish`
result with level 0.786 and retracement 80%. -/
theorem fib_missing_open_counterexample :
    c9prev.open_ = RawField.missing ∧
    calculate_fibonacci_retracement c9prev c9cur =
      ⟨786/1000, 80, 15, "recovery_after_bearish", some false⟩ ∧
    ("recovery_after_bearish" : String) ≠ "error" ∧ ((786 : ℚ)/1000) ≠ 0 := by
  refine ⟨rfl, ?_, by decide, by norm_num⟩
  have hcf : closestFib (4/5) = 786/1000 := closestFib_reg6 (by norm_num) (by norm_num)
  simp only [calculate_fibonacci_retracement, c9prev, c9cur, openOrCloseRaw,
    RawField.parse]
  norm_num [hcf]

/-- C9 amended: `calculate_fibonacci_retracement` is total; a *present but
unparseable* field (or a missing field other than `open`, whose absence
falls back to the raw close) yields the error record with level 0,
retracement 0 and range 0; and the aggregate counts exactly the pairwise
results with positive range and non-error direction, whose retracement
percentages average to `avg_retracement`. -/
theorem calculate_fibonacci_error_semantics (candles : List Candle)
    (kept : List FibResult)
    (hkept : kept =
      (((List.range ((candles.drop (candles.length - 20)).length - 1)).map fun i =>
          calculate_fibonacci_retracement
            ((candles.drop (candles.length - 20)).getD i dfltCandle)
            ((candles.drop (candles.length - 20)).getD (i+1) dfltCandle)).filter
        fun f => decide (0 < f.range_size ∧ f.direction ≠ "error")))
    (h20 : 20 ≤ candles.length) :
    (∀ prev cur : Candle,
      (prev.high.parse = none ∨ prev.low.parse = none ∨
       (openOrCloseRaw prev).parse = none ∨ prev.close.parse = none ∨
       cur.high.parse = none ∨ cur.low.parse = none) →
      calculate_fibonacci_retracement prev cur = ⟨0, 0, 0, "error", none⟩) ∧
    (calculate_average_retracement candles).sample_size = kept.length ∧
    (∀ f ∈ kept, 0 < f.range_size ∧ f.direction ≠ "error") ∧
    (calculate_average_retracement candles).avg_retracement * kept.length =
      (kept.map FibResult.retracement_pct).sum := by
  have herr : ∀ prev cur : Candle,
      (prev.high.parse = none ∨ prev.low.parse = none ∨
       (openOrCloseRaw prev).parse = none ∨ prev.close.parse = none ∨
       cur.high.parse = none ∨ cur.low.parse = none) →
      calculate_fibonacci_retracement prev cur = ⟨0, 0, 0, "error", none⟩ := by
    intro prev cur hc
    rcases hc with h | h | h | h | h | h
    · simp only [calculate_fibonacci_retracement, h]
    · rcases h1 : prev.high.parse with _ | v1 <;>
        simp only [calculate_fibonacci_retracement, h1, h]
    · rcases h1 : prev.high.parse with _ | v1 <;>
        rcases h2 : prev.low.parse with _ | v2 <;>
          simp only [calculate_fibonacci_retracement, h1, h2, h]
    · rcases h1 : prev.high.parse with _ | v1 <;>
        rcases h2 : prev.low.parse with _ | v2 <;>
          rcases h3 : (openOrCloseRaw prev).parse with _ | v3 <;>
            simp only [calculate_fibonacci_retracement, h1, h2, h3, h]
    · rcases h1 : prev.high.parse with _ | v1 <;>
        rcases h2 : prev.low.parse with _ | v2 <;>
          rcases h3 : (openOrCloseRaw prev).parse with _ | v3 <;>
            rcases h4 : prev.close.parse with _ | v4 <;>
              simp only [calculate_fibonacci_retracement, h1, h2, h3, h4, h]
    · rcases h1 : prev.high.parse with _ | v1 <;>
        rcases h2 : prev.low.parse with _ | v2 <;>
          rcases h3 : (openOrCloseRaw prev).parse with _ | v3 <;>
            rcases h4 : prev.close.parse with _ | v4 <;>
              rcases h5 : cur.high.parse with _ | v5 <;>
                simp only [calculate_fibonacci_retracement, h1, h2, h3, h4, h5, h]
  have hagg : calculate_average_retracement candles =
      (if kept.isEmpty then ⟨0, 0, 0, 0⟩ else
        { avg_retracement := listMean (kept.map FibResult.retracement_pct)
          dominant_fib_level := dominantFib (kept.map FibResult.fib_level)
          sample_size := kept.length
          retracement_var :=
            if 1 < kept.length then popVar (kept.map FibResult.retracement_pct)
            else 0 }) := by
    rw [hkept]
    unfold calculate_average_retracement
    rw [if_neg (not_lt.mpr h20)]
  refine ⟨herr, ?_, ?_, ?_⟩
  · rw [hagg]
    by_cases hk : kept.isEmpty
    · rw [if_pos hk]
      rw [List.isEmpty_iff] at hk
      simp [hk]
    · rw [if_neg hk]
  · intro f hf
    rw [hkept] at hf
    exact of_decide_eq_true (List.mem_filter.mp hf).2
  · rw [hagg]
    by_cases hk : kept.isEmpty
    · rw [if_pos hk]
      rw [List.isEmpty_iff] at hk
      simp [hk]
    · rw [if_neg hk]
      rw [List.isEmpty_iff] at hk
      have hlen : ((kept.length : ℚ)) ≠ 0 :=
        Nat.cast_ne_zero.mpr (Nat.pos_iff_ne_zero.mp (List.length_pos.mpr hk))
      show listMean (kept.map FibResult.retracement_pct) * kept.length =
        (kept.map FibResult.retracement_pct).sum
      unfold listMean
      rw [List.length_map]
      exact div_mul_cancel₀ _ hlen

/-- Witness for the amended C9 theorem: over the all-bad-high window the
kept sample is empty and the sample size 0, and a pair with an
unparseable current high maps to the error record. -/
theorem calculate_fibonacci_error_semantics_witness :
    ([] : List FibResult) =
      (((List.range ((c9window.drop (c9window.length - 20)).length - 1)).map fun i =>
          calculate_fibonacci_retracement
            ((c9window.drop (c9window.length - 20)).getD i dfltCandle)
            ((c9window.drop (c9window.length - 20)).getD (i+1) dfltCandle)).filter
        fun f => decide (0 < f.range_size ∧ f.direction ≠ "error")) ∧
    20 ≤ c9window.length ∧
    c9badcur.high.parse = none ∧
    calculate_fibonacci_retracement c9prev c9badcur = ⟨0, 0, 0, "error", none⟩ ∧
    (calculate_average_retracement c9window).sample_size =
      ([] : List FibResult).length :=
  ⟨by decide, by decide, rfl,
   (calculate_fibonacci_error_semantics c9window [] (by decide) (by decide)).1
     c9prev c9badcur (Or.inr (Or.inr (Or.inr (Or.inr (Or.inl rfl))))),
   (calculate_fibonacci_error_semantics c9window [] (by decide) (by decide)).2.1⟩

/-- Shared evaluation: the closes of `c4candles` parse to `c4closes`. -/
lemma c4_closes_eval :
    (c4candles.drop (c4candles.length - 20)).mapM (fun c => c.close.parse) =
      some c4closes := by decide

/-- Shared evaluation: the volumes of `c4candles` parse to `c4vols`. -/
lemma c4_vols_eval :
    (c4candles.drop (c4candles.length - 20)).mapM parseVolume = some c4vols := by
  decide

/-- Shared evaluation of the trend strength of `c4candles` with direction
`SIDEWAYS`: the undamped sum exceeds 100 (it is `1120/11 ≈ 101.8`), the
code does not clamp it before dampening, so the result is
`1120/11 · 0.3 = 336/11`. -/
lemma c4_strength_eval :
    calculate_trend_strength sqrt10 c4candles "SIDEWAYS" = some (336/11) := by
  have h20 : ¬ c4candles.length < 20 := by decide
  have hvar : popVar c4closes = 100 := by
    norm_num [c4closes, popVar, listMean, List.replicate]
  have hmean : listMean c4closes = 110 := by
    norm_num [c4closes, listMean, List.replicate]
  have hvt : volumeTrend c4vols = 2 := by
    norm_num [volumeTrend, c4vols, listMean, List.replicate]
  have hlast : c4closes.getLast? = some 120 := by decide
  have hhead : c4closes.head? = some 100 := by decide
  simp only [calculate_trend_strength, h20, if_false, ite_false, c4_closes_eval,
    c4_vols_eval, Option.bind_eq_bind, Option.some_bind, hlast, hhead]
  norm_num [dampen, rawStrength, hvar, hmean, hvt, sqrt10]


/-- C4 counterexample: on `c4candles` with direction `SIDEWAYS` the
undamped sum is `1120/11 > 100`.  The claim's `clamp(0,100,·)` before
dampening would give `100 · 0.3 = 30`; the code only floors at 0 before
dampening and returns `1120/11 · 0.3 = 336/11 ≈ 30.55`.  The square-root
oracle is certified at the single consulted point (`popVar = 100`). -/
theorem calculate_trend_strength_counterexample :
    popVar c4closes = 100 ∧ sqrt10 100 = 10 ∧ (0 : ℚ) ≤ 10 ∧ (10 : ℚ) ^ 2 = 100 ∧
    calculate_trend_strength sqrt10 c4candles "SIDEWAYS" = some (336/11) ∧
    min 100 ((min 100 (max 0 (min 100 (|((120 : ℚ) - 100) / 100 * 100| * 5) -
      min 50 (10 / 110 * 100 * 2) + min 20 ((2 - 1) * 20)))) * (3 / 10)) = 30 ∧
    (336/11 : ℚ) ≠ 30 :=
  ⟨by norm_num [c4closes, popVar, listMean, List.replicate], by norm_num [sqrt10],
   by norm_num, by norm_num, c4_strength_eval, by norm_num, by norm_num⟩

/-- C4 amended: fewer than 20 candles gives 0; otherwise the strength is
`min(100, dampen(direction, max(0, min(100, momentumPct·5) −
min(50, volatilityPct·2) + volumeBonus)))` — the sum is only floored at 0
before dampening, not clamped to 100 (the 100 cap applies after
dampening) — and for every square-root function the result lies in
`[0, 100]`. -/
theorem calculate_trend_strength_spec (sqrtQ : ℚ → ℚ) (candles : List Candle)
    (direction : String) :
    (candles.length < 20 → calculate_trend_strength sqrtQ candles direction = some 0) ∧
    (∀ s, calculate_trend_strength sqrtQ candles direction = some s →
      0 ≤ s ∧ s ≤ 100) ∧
    (∀ (closes volumes : List ℚ) (cLast cFirst : ℚ),
      (candles.drop (candles.length - 20)).mapM (fun c => c.close.parse) = some closes →
      (candles.drop (candles.length - 20)).mapM parseVolume = some volumes →
      closes.getLast? = some cLast → closes.head? = some cFirst →
      ¬ candles.length < 20 →
      calculate_trend_strength sqrtQ candles direction =
        some (min 100 (dampen direction (max 0
          (min 100 (|(cLast - cFirst) / cFirst * 100| * 5) -
           min 50 (sqrtQ (popVar closes) / listMean closes * 100 * 2) +
           (if 1 < volumeTrend volumes then
             min 20 ((volumeTrend volumes - 1) * 20) else 0)))))) := by
  refine ⟨?_, ?_, ?_⟩
  · intro hlt
    unfold calculate_trend_strength
    rw [if_pos hlt]
  · intro s hs
    unfold calculate_trend_strength at hs
    by_cases h20 : candles.length < 20
    · rw [if_pos h20] at hs
      obtain rfl : (0 : ℚ) = s := by simpa using hs
      norm_num
    · rw [if_neg h20] at hs
      simp only [Option.bind_eq_bind] at hs
      rcases hmc : (candles.drop (candles.length - 20)).mapM
          (fun c => c.close.parse) with _ | closes <;> rw [hmc] at hs
      · exact absurd hs (by simp)
      simp only [Option.some_bind] at hs
      rcases hmv : (candles.drop (candles.length - 20)).mapM parseVolume
          with _ | volumes <;> rw [hmv] at hs
      · exact absurd hs (by simp)
      simp only [Option.some_bind] at hs
      rcases hlast : closes.getLast? with _ | cLast <;> rw [hlast] at hs
      · exact absurd hs (by simp)
      simp only [Option.some_bind] at hs
      rcases hhead : closes.head? with _ | cFirst <;> rw [hhead] at hs
      · exact absurd hs (by simp)
      simp only [Option.some_bind, Option.pure_def, Option.some.injEq] at hs
      subst hs
      have hraw : 0 ≤ rawStrength sqrtQ closes volumes cLast cFirst :=
        le_max_left 0 _
      have hdamp : 0 ≤ dampen direction (rawStrength sqrtQ closes volumes cLast cFirst) := by
        unfold dampen
        split_ifs <;> nlinarith [hraw]
      exact ⟨le_min (by norm_num) hdamp, min_le_left _ _⟩
  · intro closes volumes cLast cFirst hmc hmv hlast hhead h20
    unfold calculate_trend_strength
    rw [if_neg h20]
    simp only [hmc, hmv, hlast, hhead, Option.bind_eq_bind, Option.some_bind]
    rfl

/-- Witness for the amended C4 theorem: the short-input case, the bounds
at the concrete result `336/11`, and the formula instance on
`c4candles`. -/
theorem calculate_trend_strength_spec_witness :
    ([] : List Candle).length < 20 ∧
    calculate_trend_strength sqrt10 [] "X" = some 0 ∧
    (0 ≤ (336/11 : ℚ) ∧ (336/11 : ℚ) ≤ 100) ∧
    ¬ c4candles.length < 20 ∧
    calculate_trend_strength sqrt10 c4candles "SIDEWAYS" =
      some (min 100 (dampen "SIDEWAYS" (max 0
        (min 100 (|((120 : ℚ) - 100) / 100 * 100| * 5) -
         min 50 (sqrt10 (popVar c4closes) / listMean c4closes * 100 * 2) +
         (if 1 < volumeTrend c4vols then
           min 20 ((volumeTrend c4vols - 1) * 20) else 0))))) :=
  ⟨by decide,
   (calculate_trend_strength_spec sqrt10 [] "X").1 (by decide),
   (calculate_trend_strength_spec sqrt10 c4candles "SIDEWAYS").2.1 (336/11)
     c4_strength_eval,
   by decide,
   (calculate_trend_strength_spec sqrt10 c4candles "SIDEWAYS").2.2 c4closes c4vols
     120 100 c4_closes_eval c4_vols_eval (by decide) (by decide) (by decide)⟩

/-- C5: `perform_analysis` advances `last_update` only on a successful
run — whenever the 5-minute gate is closed, or fewer than
`ANALYSIS_WINDOW = 20` candles are supplied, or the pipeline raises
(modelled by `analysisPipeline = none`), it returns no update and leaves
the state (timestamp and stored analysis) untouched; being a total Lean
function, nothing propagates to the caller. -/
theorem perform_analysis_no_update (sqrtQ : ℚ → ℚ) (st : AnalysisState)
    (candles : List Candle) (now : ℚ)
    (h : should_update_analysis st.last_update now = false ∨ candles.length < 20 ∨
      analysisPipeline sqrtQ candles now = none) :
    perform_analysis sqrtQ st candles now = (st, none) := by
  unfold perform_analysis
  by_cases hg : should_update_analysis st.last_update now = true
  · rw [if_neg (by simp [hg])]
    by_cases hl : candles.length < 20
    · rw [if_pos hl]
    · rw [if_neg hl]
      rcases h with h | h | h
      · rw [hg] at h; exact absurd h (by simp)
      · exact absurd h hl
      · rw [h]
  · rw [if_pos (by simpa using hg)]

/-- Witness for C5: a closed gate, a short input and a raising pipeline
each produce `(st, none)`. -/
theorem perform_analysis_no_update_witness :
    should_update_analysis (some 10) 11 = false ∧
    perform_analysis (fun _ => 0) ⟨some 10, none⟩ [] 11 = (⟨some 10, none⟩, none) ∧
    ([] : List Candle).length < 20 ∧
    perform_analysis (fun _ => 0) ⟨none, none⟩ [] 0 = (⟨none, none⟩, none) ∧
    analysisPipeline (fun _ => 0) c5badlist 0 = none ∧
    perform_analysis (fun _ => 0) ⟨none, none⟩ c5badlist 0 = (⟨none, none⟩, none) :=
  ⟨by norm_num [should_update_analysis],
   perform_analysis_no_update (fun _ => 0) ⟨some 10, none⟩ [] 11
     (Or.inl (by norm_num [should_update_analysis])),
   by decide,
   perform_analysis_no_update (fun _ => 0) ⟨none, none⟩ [] 0
     (Or.inr (Or.inl (by decide))),
   by decide,
   perform_analysis_no_update (fun _ => 0) ⟨none, none⟩ c5badlist 0
     (Or.inr (Or.inr (by decide)))⟩

/-- Folding appends over a buffer that is within capacity keeps exactly
the last 1000 elements of the concatenation. -/
lemma cb_foldl (xs : List Candle) : ∀ buf : List Candle, buf.length ≤ 1000 →
    xs.foldl cb_append buf = (buf ++ xs).drop (buf.length + xs.length - 1000) := by
  induction xs with
  | nil =>
    intro buf hbuf
    simp only [List.foldl_nil, List.append_nil, List.length_nil, Nat.add_zero]
    rw [Nat.sub_eq_zero_of_le hbuf, List.drop_zero]
  | cons x xs ih =>
    intro buf hbuf
    simp only [List.foldl_cons, List.length_cons]
    by_cases hlt : buf.length < 1000
    · have hx : cb_append buf x = buf ++ [x] := by unfold cb_append; rw [if_pos hlt]
      have hlen2 : (buf ++ [x]).length + xs.length - 1000 =
          buf.length + (xs.length + 1) - 1000 := by simp; omega
      rw [hx, ih (buf ++ [x]) (by simp; omega), hlen2, List.append_assoc,
        List.singleton_append]
    · have hbeq : buf.length = 1000 := by omega
      have hx : cb_append buf x = buf.drop 1 ++ [x] := by
        unfold cb_append; rw [if_neg hlt]
      rw [hx, ih (buf.drop 1 ++ [x]) (by simp [List.length_drop]; omega)]
      cases buf with
      | nil => simp at hbeq
      | cons b bs =>
        simp only [List.length_append, List.length_drop, List.length_cons,
          List.length_singleton, List.drop_succ_cons, List.drop_zero]
        rw [List.append_assoc, List.singleton_append]
        have h1 : bs.length = 999 := by simp at hbeq; omega
        have h3 : bs.length + 1 + (xs.length + 1) - 1000 = xs.length + 1 := by omega
        have h4 : bs.length + (List.length ([] : List Candle) + 1) + xs.length - 1000 =
            xs.length := by simp; omega
        rw [h3, h4, List.cons_append, List.drop_succ_cons]
/-- C6: starting from an empty buffer, the deque with `maxlen = 1000`
never holds more than 1000 candles (its size is `min n 1000` after `n`
appends), and after `1000 + k` appends (`k > 0`) it holds exactly the
last 1000 appended candles in arrival order (the first `k` evicted
FIFO). -/
theorem candle_buffer_capacity :
    (∀ xs : List Candle, (xs.foldl cb_append []).length = min xs.length 1000) ∧
    (∀ (xs : List Candle) (k : ℕ), 0 < k → xs.length = 1000 + k →
      xs.foldl cb_append [] = xs.drop k) := by
  have key : ∀ xs : List Candle, xs.foldl cb_append [] = xs.drop (xs.length - 1000) := by
    intro xs
    have h := cb_foldl xs [] (by simp)
    simpa using h
  constructor
  · intro xs
    rw [key]
    simp only [List.length_drop]
    omega
  · intro xs k hk hlen
    have h1 : xs.length - 1000 = k := by omega
    rw [key, h1]

/-- Witness for C6 with 1001 appends: the buffer holds 1000 candles, the
first append having been evicted. -/
theorem candle_buffer_capacity_witness :
    ((List.replicate 1001 dfltCandle).foldl cb_append []).length =
      min (List.replicate 1001 dfltCandle).length 1000 ∧
    0 < 1 ∧ (List.replicate 1001 dfltCandle).length = 1000 + 1 ∧
    (List.replicate 1001 dfltCandle).foldl cb_append [] =
      (List.replicate 1001 dfltCandle).drop 1 :=
  ⟨candle_buffer_capacity.1 _, by norm_num, by rw [List.length_replicate],
   candle_buffer_capacity.2 _ 1 (by norm_num) (by rw [List.length_replicate])⟩

/-- C8: the reconnect loop waits `min(60, 5·attempts)` seconds before
each retry and only ever retries with the counter at most
`max_reconnect_attempts = 5` (so no more than 5 consecutive reconnect
attempts happen); a successful connection resets the counter to 0; a
stopped handler never acts again; and from a fresh start six consecutive
connection failures produce exactly the five backoff waits
`5, 10, 15, 20, 25` and end in the permanently stopped state. -/
theorem reconnect_policy :
    (∀ (s : WSState) (success : Bool), s.running = false →
      loop_step s success = (s, none)) ∧
    (∀ (s : WSState) (success : Bool), s.running = true →
      loop_step s success = reconnect_step (after_connect s success)) ∧
    (∀ s : WSState, (after_connect s true).reconnect_attempts = 0) ∧
    (∀ (s : WSState) (w : ℕ), (reconnect_step s).2 = some w →
      w = min 60 (5 * (reconnect_step s).1.reconnect_attempts) ∧
      (reconnect_step s).1.reconnect_attempts ≤ max_reconnect_attempts ∧
      (reconnect_step s).1.running = s.running) ∧
    (∀ s : WSState, (reconnect_step s).1.running = true →
      (reconnect_step s).1.reconnect_attempts ≤ max_reconnect_attempts) ∧
    run_loop ws_init (List.replicate 6 false) =
      (⟨false, false, 6⟩, [5, 10, 15, 20, 25]) ∧
    (run_loop ws_init (List.replicate 6 false)).2.length = max_reconnect_attempts := by
  refine ⟨?_, ?_, ?_, ?_, ?_, by decide, by decide⟩
  · intro s success hs
    unfold loop_step
    rw [if_neg (by simp [hs])]
  · intro s success hs
    unfold loop_step
    rw [if_pos hs]
  · intro s
    unfold after_connect
    rw [if_pos rfl]
  · intro s w h
    unfold reconnect_step at h ⊢
    by_cases hc : s.reconnect_attempts + 1 ≤ max_reconnect_attempts
    · rw [if_pos hc] at h ⊢
      simp only [Option.some.injEq] at h
      exact ⟨h.symm, hc, rfl⟩
    · rw [if_neg hc] at h
      exact absurd h (by simp)
  · intro s h
    unfold reconnect_step at h ⊢
    by_cases hc : s.reconnect_attempts + 1 ≤ max_reconnect_attempts
    · rw [if_pos hc] at h ⊢
      exact hc
    · rw [if_neg hc] at h
      simp at h

/-- Witness for C8: the stopped state is absorbing, a running step goes
through the reconnect logic, a success resets the counter, and the first
failure from a fresh start waits `min(60, 5·1) = 5` seconds. -/
theorem reconnect_policy_witness :
    (⟨false, false, 6⟩ : WSState).running = false ∧
    loop_step ⟨false, false, 6⟩ false = (⟨false, false, 6⟩, none) ∧
    ws_init.running = true ∧
    loop_step ws_init false = reconnect_step (after_connect ws_init false) ∧
    (after_connect ⟨true, true, 4⟩ true).reconnect_attempts = 0 ∧
    (reconnect_step ws_init).2 = some 5 ∧
    (5 = min 60 (5 * (reconnect_step ws_init).1.reconnect_attempts) ∧
     (reconnect_step ws_init).1.reconnect_attempts ≤ max_reconnect_attempts ∧
     (reconnect_step ws_init).1.running = ws_init.running) ∧
    ((reconnect_step ws_init).1.running = true →
      (reconnect_step ws_init).1.reconnect_attempts ≤ max_reconnect_attempts) :=
  ⟨rfl,
   reconnect_policy.1 ⟨false, false, 6⟩ false rfl,
   rfl,
   reconnect_policy.2.1 ws_init false rfl,
   reconnect_policy.2.2.1 ⟨true, true, 4⟩,
   by decide,
   reconnect_policy.2.2.2.1 ws_init 5 (by decide),
   fun _ => reconnect_policy.2.2.2.2.1 ws_init (by decide)⟩
